import Mathlib

/-!
Verification of the acquisition-and-geometry core of `Caceria_PRO_U_250427.py`.

The NMEA sentence handling (function `read_from_port`), the GPS callback
chain, and the file-name scan are embedded over `ℚ` and `String` so that
concrete sentences can be evaluated; the geodesic computations
(`generate_kml` / `generate_circle_kml` / `calculate_angle`), which use
transcendental functions, are embedded over `ℝ` with Python float
arithmetic idealised as real arithmetic.
-/

namespace Caceria

/-! Numeric field parsing.

Model of Python `float(...)` applied to the coordinate fields of an NMEA
sentence: an optional sign followed by a plain decimal literal
(digits, optionally a point and more digits, at least one digit in all).
A failure models the `ValueError` that the source catches.  The result is
an exact rational, idealising the IEEE-754 rounding of the source. -/

def digitVal (c : Char) : Nat := c.toNat - '0'.toNat

def natOfDigits (cs : List Char) : Nat :=
  cs.foldl (fun a c => a * 10 + digitVal c) 0

def parseUnsigned (cs : List Char) : Option ℚ :=
  let intPart := cs.takeWhile Char.isDigit
  let rest := cs.dropWhile Char.isDigit
  match rest with
  | [] => if intPart = [] then none else some (natOfDigits intPart)
  | '.' :: fracPart =>
      if fracPart.all Char.isDigit ∧ (intPart ≠ [] ∨ fracPart ≠ []) then
        some ((natOfDigits intPart : ℚ) +
          (natOfDigits fracPart : ℚ) / (10 ^ fracPart.length))
      else none
  | _ => none

def parseDecimal (s : String) : Option ℚ :=
  match s.data with
  | [] => none
  | c :: cs =>
      if c = '-' then (parseUnsigned cs).map (fun q => -q)
      else if c = '+' then parseUnsigned cs
      else parseUnsigned (c :: cs)

/-! Degree/minute decoding.

Source lines 131-142 (GGA) and 153-164 (RMC): `lat_deg = int(lat / 100)`
with Python `int()`, i.e. truncation toward zero, then
`lat_min = lat - lat_deg * 100`, `latitude = lat_deg + lat_min / 60`,
negated when the hemisphere field is `'S'` (resp. `'W'`). -/

/-- Python `int()` on a rational: truncation toward zero. -/
def pyInt (q : ℚ) : ℤ :=
  if 0 ≤ q.num then ((q.num.natAbs / q.den : ℕ) : ℤ)
  else -((q.num.natAbs / q.den : ℕ) : ℤ)

def decodeLat (v : ℚ) (hemi : String) : ℚ :=
  let deg : ℤ := pyInt (v / 100)
  let minutes : ℚ := v - deg * 100
  let latitude : ℚ := deg + minutes / 60
  if hemi = "S" then -latitude else latitude

def decodeLon (v : ℚ) (hemi : String) : ℚ :=
  let deg : ℤ := pyInt (v / 100)
  let minutes : ℚ := v - deg * 100
  let longitude : ℚ := deg + minutes / 60
  if hemi = "W" then -longitude else longitude

/-- The decoding the spec describes, written from its words: `degrees =
floor(value / 100)`, `minutes = value − degrees*100`, `decimal_degrees =
degrees + minutes/60`, sign negated when the hemisphere field equals the
southern/western letter.  Kept separate from `decodeLat`/`decodeLon`
(which follow the source) so the two can be compared. -/
def specFloorDecode (v : ℚ) (hemi southwest : String) : ℚ :=
  let deg : ℤ := ⌊v / 100⌋
  let d : ℚ := deg + (v - deg * 100) / 60
  if hemi = southwest then -d else d

/-! Sentence recognition (source lines 127-172).

One iteration of the read loop, applied to one received line.  The GGA
branch requires `len(parts) > 5` and `parts[2]`, `parts[4]` non-empty and
numeric; the RMC branch requires `len(parts) > 6` and `parts[3]`,
`parts[5]` non-empty and numeric.  A parse failure is the caught
`ValueError` (skip); any other line is skipped.  On success the source
invokes the callback with `(longitude, latitude)` and breaks. -/

inductive LineResult where
  | fix (lon lat : ℚ)
  | skip
deriving DecidableEq

/-- Python's `str.startswith`, character by character (structural, so that
concrete sentences evaluate inside the kernel). -/
def strStarts : List Char → List Char → Bool
  | _, [] => true
  | [], _ :: _ => false
  | c :: cs, p :: ps => c = p && strStarts cs ps

/-- Python's `line.split(',')`: split at every comma, keeping empty
fields; `split(',')` of the empty string is `[""]`. -/
def splitComma : List Char → List (List Char)
  | [] => [[]]
  | c :: cs =>
      match splitComma cs, c with
      | r :: rs, ',' => [] :: r :: rs
      | r :: rs, c => (c :: r) :: rs
      | [], _ => [[]]

def pySplit (s : String) : List String :=
  (splitComma s.data).map String.mk

def isGGA (line : String) : Bool :=
  strStarts line.data "$GNGGA".data || strStarts line.data "$GPGGA".data

def isRMC (line : String) : Bool :=
  strStarts line.data "$GNRMC".data || strStarts line.data "$GPRMC".data

def ggaDecode (line : String) : Option (ℚ × ℚ) :=
  let parts := pySplit line
  if 5 < parts.length ∧ parts.getD 2 "" ≠ "" ∧ parts.getD 4 "" ≠ "" then
    match parseDecimal (parts.getD 2 ""), parseDecimal (parts.getD 4 "") with
    | some lat, some lon =>
        some (decodeLon lon (parts.getD 5 ""), decodeLat lat (parts.getD 3 ""))
    | _, _ => none
  else none

def rmcDecode (line : String) : Option (ℚ × ℚ) :=
  let parts := pySplit line
  if 6 < parts.length ∧ parts.getD 3 "" ≠ "" ∧ parts.getD 5 "" ≠ "" then
    match parseDecimal (parts.getD 3 ""), parseDecimal (parts.getD 5 "") with
    | some lat, some lon =>
        some (decodeLon lon (parts.getD 6 ""), decodeLat lat (parts.getD 4 ""))
    | _, _ => none
  else none

def processLine (line : String) : LineResult :=
  if isGGA line then
    match ggaDecode line with
    | some (lon, lat) => .fix lon lat
    | none => .skip
  else if isRMC line then
    match rmcDecode line with
    | some (lon, lat) => .fix lon lat
    | none => .skip
  else .skip

/-! The read loop (source lines 123-172).

The loop body has exactly two exits: `break` immediately after a
successful callback, and an exception propagating out of the `with`
blocks.  In particular a `readline` timeout is not an exit: `readline`
returns an empty byte string after the 5-second serial timeout, the empty
line matches no recognized prefix, and the loop iterates again.  We model
the stream of successive `readline` results as `lines : ℕ → String` and
observe the loop state after `n` iterations. -/

inductive ReadOutcome where
  | fixed (lon lat : ℚ)
  | listening
deriving DecidableEq

def runReader (lines : ℕ → String) : ℕ → ReadOutcome
  | 0 => .listening
  | n + 1 =>
      match runReader lines n with
      | .fixed lon lat => .fixed lon lat
      | .listening =>
          match processLine (lines n) with
          | .fix lon lat => .fixed lon lat
          | .skip => .listening

/-- The read loop applied to a finite batch of lines: the first line that
decodes to a fix wins; all preceding lines are skipped. -/
def runList : List String → Option (ℚ × ℚ)
  | [] => none
  | l :: ls =>
      match processLine l with
      | .fix lon lat => some (lon, lat)
      | .skip => runList ls

/-- Sentence of spec section 8, a well-formed GGA fix. -/
def gga_reference_sentence : String :=
  "$GPGGA,123519,4807.038,N,01131.000,E,1,08,0.9,545.4,M,46.9,M,,*47"

/-- Sentence with a signed (negative) raw latitude field: it passes the
field-count and non-empty checks and `float()` accepts it. -/
def gga_negative_field_sentence : String := "$GPGGA,1,-4807.038,N,01131.000,E"

/-- Sentence of spec section 8 with all-empty coordinate fields. -/
def gga_empty_fields_sentence : String := "$GPGGA,,,,,,,,,,,,,,*00"

/-! The GPS callback chain (source lines 333-347 and 369-377).

Function `read_gps_coordinates` reports either a decoded `(lon, lat)`
pair or `(None, None)` on failure; both are modelled as `Option ℚ`
arguments.  `gps_callback` tests `if lon and lat:` — Python truthiness,
under which `None` and the float `0.0` are both falsy. -/

inductive GpsStatus where
  | connecting
  | connected
  | error
deriving DecidableEq

structure PointState where
  lon : Option ℚ
  lat : Option ℚ
  status : GpsStatus
deriving DecidableEq

/-- Python truthiness of a coordinate slot: `None` is falsy, a float is
falsy exactly when it equals `0.0`. -/
def pyTruthy : Option ℚ → Bool
  | none => false
  | some v => decide (v ≠ 0)

/-- Function `gps_callback` (source lines 333-346): on a truthy pair,
store the coordinates and mark the point connected; otherwise keep the
old field values and mark the status `Error`. -/
def gps_callback (lon lat : Option ℚ) (s : PointState) : PointState :=
  if pyTruthy lon && pyTruthy lat then
    { lon := lon, lat := lat, status := .connected }
  else
    { s with status := .error }

/-- Functions `point1_callback` / `point2_callback` (source lines
369-377): fill the shared `gps_data` slot only when `if lon and lat:`
holds; otherwise leave the slot untouched. -/
def point_slot_callback (lon lat : Option ℚ) (slot : Option (ℚ × ℚ)) :
    Option (ℚ × ℚ) :=
  match lon, lat with
  | some lo, some la =>
      if pyTruthy (some lo) && pyTruthy (some la) then some (lo, la) else slot
  | _, _ => slot

/-- Function `on_both_loaded` (source line 363): the dual-point workflow
proceeds only when both slots are filled (a tuple is truthy, `None` is
not). -/
def both_loaded (p1 p2 : Option (ℚ × ℚ)) : Bool :=
  p1.isSome && p2.isSome

/-! FileNamer (source lines 189-206).

Function `get_next_filename` loops `counter = 1, 2, 3, …` and returns the
first candidate path for which `os.path.exists` is false.  The filesystem
is abstracted as the existence test `fileExists`; `os.path.join` is the
POSIX join.  The source loop terminates exactly when some candidate is
free, which the model carries as the hypothesis `h`; `Nat.find h` is the
least such index, mirroring the ascending scan. -/

def candidate_name (directory base_name extn : String) (n : ℕ) : String :=
  directory ++ "/" ++ base_name ++ " " ++ toString n ++ "." ++ extn

def get_next_filename (fileExists : String → Bool)
    (directory base_name extn : String)
    (h : ∃ n : ℕ, fileExists (candidate_name directory base_name extn (n + 1)) = false) :
    String :=
  candidate_name directory base_name extn (Nat.find h + 1)

/-- Concrete filesystem for the worked example: exactly `line 1.kml` and
`line 2.kml` exist in `/out`. -/
def demoFs : String → Bool :=
  fun s => s == "/out/line 1.kml" || s == "/out/line 2.kml"

/-! GeodesicEngine and KmlEmitter (source lines 14-106 and 208-224).

Python float arithmetic is idealised as real arithmetic.  The emitted
KML document is abstracted to its payload (style plus the coordinate
pairs, in source order); the filesystem is an association list to which
`open(filename, 'wb')` + `write` prepends an entry. -/

inductive KmlDoc where
  | line (color : String) (width : ℤ) (p1 p2 p3 : ℝ × ℝ)
  | circle (color : String) (width : ℤ) (vertices : List (ℝ × ℝ))

noncomputable section

/-- Source lines 27-45 of `generate_kml`: the direction vector, the
zero-magnitude check (the `ValueError` raise, modelled as `none`), and
the extended endpoint.  Runs before anything is written. -/
def extend_line (longitude1 latitude1 longitude2 latitude2 length : ℝ) :
    Option (ℝ × ℝ) :=
  let direction_longitude := longitude2 - longitude1
  let direction_latitude := latitude2 - latitude1
  let magnitude := Real.sqrt (direction_longitude ^ 2 + direction_latitude ^ 2)
  if magnitude = 0 then none
  else
    let delta_longitude :=
      (length / (6378137 * Real.cos (Real.pi * latitude2 / 180))) * (180 / Real.pi)
    let delta_latitude := (length / 6378137) * (180 / Real.pi)
    some (longitude2 + direction_longitude / magnitude * delta_longitude,
          latitude2 + direction_latitude / magnitude * delta_latitude)

/-- Function `generate_kml` (source lines 14-64): the degenerate-input
check raises before the output file is opened, so the error branch
carries no filesystem change; on success a single line document is
written at `filename`. -/
def generate_kml (fs : List (String × KmlDoc))
    (longitude1 latitude1 longitude2 latitude2 length : ℝ)
    (filename line_color : String) (line_width : ℤ) :
    Except String (List (String × KmlDoc)) :=
  match extend_line longitude1 latitude1 longitude2 latitude2 length with
  | none => .error "The two points cannot be the same."
  | some endpoint =>
      .ok ((filename,
        KmlDoc.line line_color line_width (longitude1, latitude1)
          (longitude2, latitude2) endpoint) :: fs)

/-- The filesystem as the caller observes it after the call: unchanged
when `generate_kml` raised, rewritten when it returned. -/
def run_generate_kml (fs : List (String × KmlDoc))
    (longitude1 latitude1 longitude2 latitude2 length : ℝ)
    (filename line_color : String) (line_width : ℤ) :
    List (String × KmlDoc) :=
  match generate_kml fs longitude1 latitude1 longitude2 latitude2 length
      filename line_color line_width with
  | .error _ => fs
  | .ok fs2 => fs2

/-- The loop body of `generate_circle_kml` (source lines 81-87): vertex
`i` at `angle = 2π·i/100`, with the equirectangular deltas from
`radius_km` and Earth radius 6371 km. -/
def circleVertex (center_longitude center_latitude radius_km : ℝ) (i : ℕ) :
    ℝ × ℝ :=
  let angle := 2 * Real.pi * (i : ℝ) / 100
  let delta_lat := (radius_km / 6371) * (180 / Real.pi)
  let delta_lon :=
    (radius_km / (6371 * Real.cos (Real.pi * center_latitude / 180))) * (180 / Real.pi)
  (center_longitude + delta_lon * Real.cos angle,
   center_latitude + delta_lat * Real.sin angle)

/-- Source lines 76-87 of `generate_circle_kml`: `num_points = 100`,
vertices appended for `i in range(num_points + 1)`. -/
def circle_points (center_longitude center_latitude radius_km : ℝ) :
    List (ℝ × ℝ) :=
  (List.range (100 + 1)).map
    (circleVertex center_longitude center_latitude radius_km)

/-- Function `generate_circle_kml` (source lines 66-106): no validation
of any kind is performed on `radius_km`; the vertex list is computed and
the document written unconditionally. -/
def generate_circle_kml (fs : List (String × KmlDoc))
    (center_longitude center_latitude radius_km : ℝ)
    (filename line_color : String) (line_width : ℤ) :
    List (String × KmlDoc) :=
  (filename,
    KmlDoc.circle line_color line_width
      (circle_points center_longitude center_latitude radius_km)) :: fs

/-- Python `math.atan2`, as the argument of the complex number
`x + y·i`: range `(-π, π]`, and `atan2 0 0 = 0`. -/
def atan2 (y x : ℝ) : ℝ := Complex.arg { re := x, im := y }

/-- Python `math.degrees`. -/
def degrees (x : ℝ) : ℝ := x * 180 / Real.pi

/-- Python's float `%` for a positive modulus: `a - b * floor(a / b)`,
the representative in `[0, b)`. -/
def pymod (a b : ℝ) : ℝ := a - b * ⌊a / b⌋

/-- Function `calculate_angle` (source lines 208-224). -/
def calculate_angle (longitude1 latitude1 longitude2 latitude2 : ℝ) : ℝ :=
  let delta_lon := longitude2 - longitude1
  let delta_lat := latitude2 - latitude1
  let angle := degrees (atan2 delta_lon delta_lat)
  pymod (angle + 360) 360

end

/-! Helper lemmas shared by the claim theorems. -/

theorem pyInt_eq_floor (q : ℚ) (hq : 0 ≤ q) : pyInt q = ⌊q⌋ := by
  unfold pyInt
  rw [if_pos (Rat.num_nonneg.mpr hq)]
  rw [Rat.floor_def]
  rw [← Int.natAbs_of_nonneg (Rat.num_nonneg.mpr hq)]
  exact Int.ofNat_div _ _

theorem strStarts_eq_of_length (l : List Char) :
    ∀ p q : List Char, strStarts l p = true → strStarts l q = true →
      p.length = q.length → p = q := by
  induction l with
  | nil =>
      intro p q hp hq hlen
      cases p with
      | nil =>
          cases q with
          | nil => rfl
          | cons b qs => simp [strStarts] at hq
      | cons a ps => simp [strStarts] at hp
  | cons c cs ih =>
      intro p q hp hq hlen
      cases p with
      | nil =>
          cases q with
          | nil => rfl
          | cons b qs => simp at hlen
      | cons a ps =>
          cases q with
          | nil => simp at hlen
          | cons b qs =>
              simp only [strStarts, Bool.and_eq_true, decide_eq_true_eq] at hp hq
              obtain ⟨hca, hps⟩ := hp
              obtain ⟨hcb, hqs⟩ := hq
              simp only [List.length_cons, Nat.add_right_cancel_iff] at hlen
              rw [← hca, ← hcb, ih ps qs hps hqs hlen]

theorem isGGA_false_of_isRMC (line : String) (h : isRMC line = true) :
    isGGA line = false := by
  unfold isRMC at h
  unfold isGGA
  rw [Bool.or_eq_true] at h
  rw [Bool.or_eq_false_iff]
  constructor
  · by_contra hg
    rw [Bool.not_eq_false] at hg
    rcases h with h | h
    · exact absurd (strStarts_eq_of_length line.data _ _ hg h (by decide)) (by decide)
    · exact absurd (strStarts_eq_of_length line.data _ _ hg h (by decide)) (by decide)
  · by_contra hg
    rw [Bool.not_eq_false] at hg
    rcases h with h | h
    · exact absurd (strStarts_eq_of_length line.data _ _ hg h (by decide)) (by decide)
    · exact absurd (strStarts_eq_of_length line.data _ _ hg h (by decide)) (by decide)

theorem ggaDecode_none_of_fails (line : String)
    (h : ¬ 5 < (pySplit line).length ∨ (pySplit line).getD 2 "" = "" ∨
      (pySplit line).getD 4 "" = "" ∨
      parseDecimal ((pySplit line).getD 2 "") = none ∨
      parseDecimal ((pySplit line).getD 4 "") = none) :
    ggaDecode line = none := by
  unfold ggaDecode
  by_cases hc : 5 < (pySplit line).length ∧ (pySplit line).getD 2 "" ≠ "" ∧
      (pySplit line).getD 4 "" ≠ ""
  · rw [if_pos hc]
    rcases h with hf | hf | hf | hf | hf
    · exact absurd hc.1 hf
    · exact absurd hf hc.2.1
    · exact absurd hf hc.2.2
    · rw [hf]
    · rw [hf]
      cases hx : parseDecimal ((pySplit line).getD 2 "") <;> rfl
  · rw [if_neg hc]

theorem rmcDecode_none_of_fails (line : String)
    (h : ¬ 6 < (pySplit line).length ∨ (pySplit line).getD 3 "" = "" ∨
      (pySplit line).getD 5 "" = "" ∨
      parseDecimal ((pySplit line).getD 3 "") = none ∨
      parseDecimal ((pySplit line).getD 5 "") = none) :
    rmcDecode line = none := by
  unfold rmcDecode
  by_cases hc : 6 < (pySplit line).length ∧ (pySplit line).getD 3 "" ≠ "" ∧
      (pySplit line).getD 5 "" ≠ ""
  · rw [if_pos hc]
    rcases h with hf | hf | hf | hf | hf
    · exact absurd hc.1 hf
    · exact absurd hf hc.2.1
    · exact absurd hf hc.2.2
    · rw [hf]
    · rw [hf]
      cases hx : parseDecimal ((pySplit line).getD 3 "") <;> rfl
  · rw [if_neg hc]

theorem extend_line_eq_none_iff (lon1 lat1 lon2 lat2 length : ℝ) :
    extend_line lon1 lat1 lon2 lat2 length = none ↔ lon1 = lon2 ∧ lat1 = lat2 := by
  simp only [extend_line]
  split_ifs with hmag
  · simp only [true_iff]
    rw [Real.sqrt_eq_zero'] at hmag
    have h2 : (lon2 - lon1) ^ 2 + (lat2 - lat1) ^ 2 = 0 :=
      le_antisymm hmag (by positivity)
    have h3 := (add_eq_zero_iff_of_nonneg (sq_nonneg _) (sq_nonneg _)).mp h2
    have h4 := sq_eq_zero_iff.mp h3.1
    have h5 := sq_eq_zero_iff.mp h3.2
    constructor <;> linarith
  · simp only [false_iff]
    intro hco
    obtain ⟨h1, h2⟩ := hco
    apply hmag
    rw [← h1, ← h2]
    simp

theorem pymod_bounds (a : ℝ) : 0 ≤ pymod a 360 ∧ pymod a 360 < 360 := by
  unfold pymod
  have h1 : ((⌊a / 360⌋ : ℝ)) ≤ a / 360 := Int.floor_le _
  have h2 : a / 360 < ⌊a / 360⌋ + 1 := Int.lt_floor_add_one _
  constructor <;> nlinarith

theorem atan2_zero : atan2 0 0 = 0 := by
  unfold atan2
  have h : ({ re := 0, im := 0 } : ℂ) = 0 := by
    apply Complex.ext <;> simp
  rw [h, Complex.arg_zero]

theorem degrees_atan2_bounds (y x : ℝ) :
    -180 < degrees (atan2 y x) ∧ degrees (atan2 y x) ≤ 180 := by
  unfold degrees atan2
  have h1 := Complex.neg_pi_lt_arg ({ re := x, im := y } : ℂ)
  have h2 := Complex.arg_le_pi ({ re := x, im := y } : ℂ)
  have hpi := Real.pi_pos
  constructor
  · rw [lt_div_iff₀ hpi]
    nlinarith
  · rw [div_le_iff₀ hpi]
    nlinarith

theorem pymod_shift (a : ℝ) (h1 : -180 < a) (h2 : a ≤ 180) :
    pymod (a + 360) 360 = if a < 0 then a + 360 else a := by
  unfold pymod
  by_cases hc : a < 0
  · rw [if_pos hc]
    have hf : ⌊(a + 360) / 360⌋ = 0 := by
      rw [Int.floor_eq_zero_iff, Set.mem_Ico]
      constructor
      · apply div_nonneg (by linarith) (by norm_num)
      · rw [div_lt_one (by norm_num : (0:ℝ) < 360)]
        linarith
    rw [hf]
    push_cast
    ring
  · rw [if_neg hc]
    have hf : ⌊(a + 360) / 360⌋ = 1 := by
      rw [Int.floor_eq_iff]
      constructor
      · push_cast
        rw [le_div_iff₀ (by norm_num : (0:ℝ) < 360)]
        linarith
      · push_cast
        rw [div_lt_iff₀ (by norm_num : (0:ℝ) < 360)]
        linarith
    rw [hf]
    push_cast
    ring

/-! Claim theorems. -/

/-- C1: With a silent device the `readline` timeout only ever produces an
empty line, which matches no recognized prefix; the `while True` loop
therefore stays in its listening state after every number of iterations
and never reaches any terminal outcome — there is no timeout-failure exit
in the code, contradicting the claimed `Failed(timeout)` transition. -/
theorem silent_reader_never_reaches_timeout_failure :
    ∀ n : ℕ, runReader (fun _ => "") n = .listening := by
  intro n
  induction n with
  | zero => rfl
  | succ n ih =>
      unfold runReader
      rw [ih]
      rfl

/-- C2: For every center and radius the circle computation produces
exactly 101 vertices and the vertex at index 0 equals the vertex at
index 100 (closed polygon). -/
theorem circle_points_count_and_closure (lon lat r : ℝ) :
    (circle_points lon lat r).length = 101 ∧
    (circle_points lon lat r)[0]? = (circle_points lon lat r)[100]? := by
  constructor
  · rw [circle_points, List.length_map, List.length_range]
  · rw [circle_points, List.getElem?_map, List.getElem?_map,
      List.getElem?_range (by norm_num), List.getElem?_range (by norm_num),
      Option.map_some']
    congr 1
    unfold circleVertex
    have h100 : 2 * Real.pi * ((100 : ℕ) : ℝ) / 100 = 2 * Real.pi := by
      push_cast
      ring
    have h0 : 2 * Real.pi * ((0 : ℕ) : ℝ) / 100 = 0 := by
      push_cast
      ring
    rw [h100, h0]
    simp [Real.cos_two_pi, Real.sin_two_pi]

/-- C3 (counterexample): a circle request with radius −5 still emits a
document — the filesystem gains an entry holding a full 101-vertex
geometry — refuting the claim that a non-positive radius fails with
`GeometryError` and emits nothing. -/
theorem nonpositive_radius_circle_still_emitted :
    generate_circle_kml [] 0 0 (-5) "circle 1.kml" "ff0000ff" 2 ≠ [] ∧
    (circle_points 0 0 (-5)).length = 101 := by
  constructor
  · simp [generate_circle_kml]
  · rw [circle_points, List.length_map, List.length_range]

/-- C3 (amended): `generate_circle_kml` performs no radius validation:
for every non-positive radius the 101-vertex circle geometry is computed
and the document is written unconditionally; no `GeometryError` exists in
this code path. -/
theorem generate_circle_kml_ignores_radius_sign (fs : List (String × KmlDoc))
    (lon lat r : ℝ) (hr : r ≤ 0) (fn c : String) (w : ℤ) :
    generate_circle_kml fs lon lat r fn c w =
      (fn, KmlDoc.circle c w (circle_points lon lat r)) :: fs ∧
    (generate_circle_kml fs lon lat r fn c w).length = fs.length + 1 ∧
    (circle_points lon lat r).length = 101 := by
  refine ⟨rfl, ?_, ?_⟩
  · simp [generate_circle_kml]
  · rw [circle_points, List.length_map, List.length_range]

/-- C3 (witness): the amended theorem applied at the concrete
non-positive radius −5. -/
theorem generate_circle_kml_ignores_radius_sign_witness :
    generate_circle_kml [] 0 0 (-5) "circle 1.kml" "ff0000ff" 2 =
      ("circle 1.kml", KmlDoc.circle "ff0000ff" 2 (circle_points 0 0 (-5))) :: [] ∧
    (generate_circle_kml [] 0 0 (-5) "circle 1.kml" "ff0000ff" 2).length =
      ([] : List (String × KmlDoc)).length + 1 ∧
    (circle_points 0 0 (-5)).length = 101 :=
  generate_circle_kml_ignores_radius_sign [] 0 0 (-5) (by norm_num)
    "circle 1.kml" "ff0000ff" 2

/-- C4 (counterexample): the sentence with raw latitude field
`-4807.038` passes every check the code performs, yet the coordinate the
code decodes (truncation toward zero) differs from the spec's floor
formula at that value. -/
theorem decode_negative_raw_field_ne_floor_formula :
    processLine gga_negative_field_sentence =
      .fix (11 + 31 / 60) (-(48 + 7038 / 1000 / 60)) ∧
    decodeLat (-(4807038 / 1000)) "N" ≠ specFloorDecode (-(4807038 / 1000)) "N" "S" := by
  constructor
  · with_unfolding_all rfl
  · with_unfolding_all decide

/-- C4 (amended): the code decodes with Python `int()` truncation, which
agrees with the claimed floor formula on every non-negative raw field
value (hence on every well-formed `ddmm.mmmm` field), with the sign
negated exactly for hemispheres `S` / `W`; and the section-8 reference
sentence decodes to longitude `11 + 31/60` and latitude `48 + 7.038/60`,
both positive. -/
theorem decode_matches_floor_formula_on_nonneg (v : ℚ) (hv : 0 ≤ v)
    (hemiLat hemiLon : String) :
    decodeLat v hemiLat = specFloorDecode v hemiLat "S" ∧
    decodeLon v hemiLon = specFloorDecode v hemiLon "W" ∧
    processLine gga_reference_sentence =
      .fix (11 + 31 / 60) (48 + 7038 / 1000 / 60) := by
  have hdiv : (0 : ℚ) ≤ v / 100 := div_nonneg hv (by norm_num)
  refine ⟨?_, ?_, ?_⟩
  · unfold decodeLat specFloorDecode
    rw [pyInt_eq_floor _ hdiv]
  · unfold decodeLon specFloorDecode
    rw [pyInt_eq_floor _ hdiv]
  · with_unfolding_all rfl

/-- C4 (witness): the amended theorem applied at the section-8 raw
latitude value `4807.038` with hemispheres `N` / `E`. -/
theorem decode_matches_floor_formula_on_nonneg_witness :
    decodeLat (4807038 / 1000) "N" = specFloorDecode (4807038 / 1000) "N" "S" ∧
    decodeLon (4807038 / 1000) "E" = specFloorDecode (4807038 / 1000) "E" "W" ∧
    processLine gga_reference_sentence =
      .fix (11 + 31 / 60) (48 + 7038 / 1000 / 60) :=
  decode_matches_floor_formula_on_nonneg (4807038 / 1000) (by norm_num) "N" "E"

/-- C5: a decoded fix whose longitude or latitude is exactly zero fails
the `if lon and lat:` truthiness test, so `gps_callback` behaves exactly
as on the `(None, None)` failure report: coordinates are not stored, the
status becomes `Error`, the dual-point slot stays untouched, and the pair
is never considered complete. -/
theorem zero_coordinate_fix_treated_as_failure (lo la : ℚ) (s : PointState)
    (slot : Option (ℚ × ℚ)) :
    gps_callback (some 0) (some la) s = gps_callback none none s ∧
    gps_callback (some lo) (some 0) s = gps_callback none none s ∧
    (gps_callback (some 0) (some la) s).status = .error ∧
    (gps_callback (some 0) (some la) s).lon = s.lon ∧
    (gps_callback (some 0) (some la) s).lat = s.lat ∧
    point_slot_callback (some 0) (some la) slot = slot ∧
    point_slot_callback (some lo) (some 0) slot = slot ∧
    both_loaded (point_slot_callback (some 0) (some la) none) slot = false := by
  refine ⟨?_, ?_, ?_, ?_, ?_, ?_, ?_, ?_⟩ <;>
    simp [gps_callback, point_slot_callback, pyTruthy, both_loaded]

/-- C6: the line extension fails with the degenerate-input error if and
only if the two points coincide in both coordinates (the direction
vector has zero magnitude); for distinct points no such error occurs. -/
theorem extend_line_fails_iff_points_coincide
    (lon1 lat1 lon2 lat2 length : ℝ) :
    extend_line lon1 lat1 lon2 lat2 length = none ↔
      lon1 = lon2 ∧ lat1 = lat2 :=
  extend_line_eq_none_iff lon1 lat1 lon2 lat2 length

/-- C7: a line bearing a recognized GGA/RMC prefix that fails the
field-count check, has an empty coordinate field, or whose coordinate
field does not parse as a number, yields no fix and the read loop simply
moves on to the remaining lines; the malformed sentence neither
terminates the attempt nor escapes as an error. -/
theorem malformed_recognized_sentence_skipped (line : String) (rest : List String)
    (h : (isGGA line = true ∧ (¬ 5 < (pySplit line).length ∨
            (pySplit line).getD 2 "" = "" ∨ (pySplit line).getD 4 "" = "" ∨
            parseDecimal ((pySplit line).getD 2 "") = none ∨
            parseDecimal ((pySplit line).getD 4 "") = none)) ∨
         (isRMC line = true ∧ (¬ 6 < (pySplit line).length ∨
            (pySplit line).getD 3 "" = "" ∨ (pySplit line).getD 5 "" = "" ∨
            parseDecimal ((pySplit line).getD 3 "") = none ∨
            parseDecimal ((pySplit line).getD 5 "") = none))) :
    processLine line = .skip ∧ runList (line :: rest) = runList rest := by
  have hskip : processLine line = .skip := by
    rcases h with ⟨hg, hfail⟩ | ⟨hr, hfail⟩
    · have hnone := ggaDecode_none_of_fails line hfail
      unfold processLine
      rw [hg, hnone]
      rfl
    · have hnone := rmcDecode_none_of_fails line hfail
      have hgf := isGGA_false_of_isRMC line hr
      unfold processLine
      rw [hgf, hr, hnone]
      rfl
  refine ⟨hskip, ?_⟩
  conv_lhs => rw [runList]
  rw [hskip]

/-- C7 (witness): the all-empty-fields sentence of spec section 8 is
skipped and processing continues. -/
theorem malformed_recognized_sentence_skipped_witness :
    processLine gga_empty_fields_sentence = .skip ∧
    runList [gga_empty_fields_sentence] = runList [] :=
  malformed_recognized_sentence_skipped gga_empty_fields_sentence []
    (Or.inl ⟨by decide, Or.inr (Or.inl (by decide))⟩)

/-- C8: `calculate_angle` always lies in `[0, 360)`, equals the
degree-converted `atan2` of the coordinate deltas normalized by adding
360 exactly when negative, and returns exactly 0 when the two points
coincide. -/
theorem calculate_angle_range_normalization_and_zero
    (lon1 lat1 lon2 lat2 : ℝ) :
    0 ≤ calculate_angle lon1 lat1 lon2 lat2 ∧
    calculate_angle lon1 lat1 lon2 lat2 < 360 ∧
    calculate_angle lon1 lat1 lon2 lat2 =
      (if degrees (atan2 (lon2 - lon1) (lat2 - lat1)) < 0
       then degrees (atan2 (lon2 - lon1) (lat2 - lat1)) + 360
       else degrees (atan2 (lon2 - lon1) (lat2 - lat1))) ∧
    calculate_angle lon1 lat1 lon1 lat1 = 0 := by
  have hca : calculate_angle lon1 lat1 lon2 lat2 =
      pymod (degrees (atan2 (lon2 - lon1) (lat2 - lat1)) + 360) 360 := rfl
  have hb := degrees_atan2_bounds (lon2 - lon1) (lat2 - lat1)
  refine ⟨?_, ?_, ?_, ?_⟩
  · rw [hca]
    exact (pymod_bounds _).1
  · rw [hca]
    exact (pymod_bounds _).2
  · rw [hca]
    exact pymod_shift _ hb.1 hb.2
  · have hzero : calculate_angle lon1 lat1 lon1 lat1 =
        pymod (degrees (atan2 (lon1 - lon1) (lat1 - lat1)) + 360) 360 := rfl
    rw [hzero, sub_self, sub_self, atan2_zero]
    have hdeg : degrees 0 = 0 := by
      unfold degrees
      simp
    rw [hdeg, zero_add]
    have hsh := pymod_shift 0 (by norm_num) (by norm_num)
    rw [zero_add] at hsh
    rw [hsh]
    norm_num

/-- C9: `get_next_filename` returns the candidate path
`base_name n.extension` for the smallest index `n ≥ 1` at which no file
exists. -/
theorem get_next_filename_returns_first_free (fe : String → Bool)
    (d b e : String)
    (h : ∃ n : ℕ, fe (candidate_name d b e (n + 1)) = false) (m : ℕ)
    (hm : 1 ≤ m)
    (hfree : fe (candidate_name d b e m) = false)
    (hleast : ∀ k, 1 ≤ k → k < m → fe (candidate_name d b e k) = true) :
    get_next_filename fe d b e h = candidate_name d b e m := by
  unfold get_next_filename
  congr 1
  have hle : Nat.find h ≤ m - 1 := by
    apply Nat.find_le
    have he : m - 1 + 1 = m := by omega
    rw [he]
    exact hfree
  by_contra hne
  have hlt : Nat.find h + 1 < m := by omega
  have htrue := hleast (Nat.find h + 1) (by omega) hlt
  have hspec := Nat.find_spec h
  rw [htrue] at hspec
  exact Bool.noConfusion hspec

/-- C9 (witness): on a directory already holding `line 1.kml` and
`line 2.kml` the scan returns `line 3.kml`. -/
theorem get_next_filename_returns_first_free_witness :
    get_next_filename demoFs "/out" "line" "kml" ⟨2, by decide⟩ =
      "/out/line 3.kml" := by
  have h := get_next_filename_returns_first_free demoFs "/out" "line" "kml"
    ⟨2, by decide⟩ 3 (by norm_num) (by decide)
    (by
      intro k h1 h3
      interval_cases k
      · decide
      · decide)
  rw [h]
  decide

/-- C10: when the two points coincide, `generate_kml` raises the
degenerate-input error before the output file is opened, so the
filesystem is unchanged: no entry is created or truncated at the target
path. -/
theorem generate_kml_coincident_error_before_write
    (fs : List (String × KmlDoc)) (lon1 lat1 lon2 lat2 length : ℝ)
    (filename line_color : String) (line_width : ℤ)
    (h1 : lon1 = lon2) (h2 : lat1 = lat2) :
    generate_kml fs lon1 lat1 lon2 lat2 length filename line_color line_width =
      .error "The two points cannot be the same." ∧
    run_generate_kml fs lon1 lat1 lon2 lat2 length filename line_color
      line_width = fs := by
  have hnone : extend_line lon1 lat1 lon2 lat2 length = none :=
    (extend_line_eq_none_iff lon1 lat1 lon2 lat2 length).mpr ⟨h1, h2⟩
  constructor
  · unfold generate_kml
    rw [hnone]
  · unfold run_generate_kml generate_kml
    rw [hnone]

/-- C10 (witness): the coincident-points theorem applied at the concrete
point (1, 1) with an empty filesystem. -/
theorem generate_kml_coincident_error_before_write_witness :
    generate_kml [] 1 1 1 1 50000 "direccional 1.kml" "ff0000ff" 2 =
      .error "The two points cannot be the same." ∧
    run_generate_kml [] 1 1 1 1 50000 "direccional 1.kml" "ff0000ff" 2 = [] :=
  generate_kml_coincident_error_before_write [] 1 1 1 1 50000
    "direccional 1.kml" "ff0000ff" 2 rfl rfl

end Caceria
